import Mathlib

/-!
Verification of the NetBox custom validators in `custom_validators/iprange.py`.

The file embeds the two validator checks shallowly:

* an IP address record carries a routing-context scope (`vrf`, possibly
  NULL, hence `Option Nat`) and a numeric, orderable address value;
* an IP range record carries a scope and inclusive start/end values;
* the Django ORM backend is a pair of record lists (in query order)
  together with two flags saying whether the corresponding lookup raises;
* a raising lookup is an `Except.error`, and the bare `except: pass`
  of the source maps each error to the no-conflict answer `none`.
-/

/-- An IPAddress record: routing context (vrf, nullable) and address value. -/
structure IPAddressRec where
  vrf : Option Nat
  address : Nat
deriving Repr, DecidableEq

/-- An IPRange record: routing context (vrf, nullable) and inclusive bounds. -/
structure IPRangeRec where
  vrf : Option Nat
  start_address : Nat
  end_address : Nat
deriving Repr, DecidableEq

/-- The string form `str(ip)` of an address record. -/
def IPAddressRec.str (ip : IPAddressRec) : String :=
  toString ip.address

/-- The string form `str(rg)` of a range record. -/
def IPRangeRec.str (rg : IPRangeRec) : String :=
  toString rg.start_address ++ "-" ++ toString rg.end_address

/-- The backend: stored records in query order, plus whether each of the two
ORM lookups made by the validators raises an exception. -/
structure Backend where
  ranges : List IPRangeRec
  addresses : List IPAddressRec
  rangeQueryRaises : Bool
  addressQueryRaises : Bool
deriving Repr, DecidableEq

/-- Embeds `IPRange.objects.filter(vrf=ip.vrf)`: a queryset filtered by scope,
or an exception when the backend raises during the lookup. -/
def filterRangesByVrf (b : Backend) (v : Option Nat) : Except String (List IPRangeRec) :=
  if b.rangeQueryRaises then Except.error "backend error"
  else Except.ok (b.ranges.filter (fun rg => decide (rg.vrf = v)))

/-- Embeds `.filter(Q(start_address__lte=ip.address) & Q(end_address__gte=ip.address))`. -/
def filterRangesContaining (l : List IPRangeRec) (a : Nat) : List IPRangeRec :=
  l.filter (fun rg => decide (rg.start_address ≤ a) && decide (a ≤ rg.end_address))

/-- Embeds `address_in_range(ip)`: the first range of the same scope whose
inclusive bounds contain the address, `none` when there is no such range or
the lookup raised (`except: pass` followed by `return None`). -/
def address_in_range (b : Backend) (ip : IPAddressRec) : Option IPRangeRec :=
  match filterRangesByVrf b ip.vrf with
  | Except.error _ => none
  | Except.ok byVrf =>
      let including_ranges := filterRangesContaining byVrf ip.address
      if including_ranges.isEmpty then none
      else including_ranges.head?

/-- Embeds `IPAddress.objects.filter(vrf=rg.vrf)`. -/
def filterAddressesByVrf (b : Backend) (v : Option Nat) : Except String (List IPAddressRec) :=
  if b.addressQueryRaises then Except.error "backend error"
  else Except.ok (b.addresses.filter (fun ip => decide (ip.vrf = v)))

/-- Embeds `.filter(Q(address__gte=start) & Q(address__lte=end))`. -/
def filterAddressesBetween (l : List IPAddressRec) (s e : Nat) : List IPAddressRec :=
  l.filter (fun ip => decide (s ≤ ip.address) && decide (ip.address ≤ e))

/-- Embeds `range_includes_address(rg)`: the stringified conflicting addresses,
`none` when there is no conflicting address or the lookup raised. -/
def range_includes_address (b : Backend) (rg : IPRangeRec) : Option (List String) :=
  match filterAddressesByVrf b rg.vrf with
  | Except.error _ => none
  | Except.ok byVrf =>
      let included_addresses := filterAddressesBetween byVrf rg.start_address rg.end_address
      if included_addresses.isEmpty then none
      else some (included_addresses.map IPAddressRec.str)

/-- Outcome of a `CustomValidator.validate` call: either it returns normally
(`pass`) or it calls `self.fail(message, field=field)`. -/
inductive ValidationResult where
  | pass : ValidationResult
  | fail (message : String) (field : String) : ValidationResult
deriving Repr, DecidableEq

/-- True exactly when the outcome is a validation failure. -/
def ValidationResult.isFail : ValidationResult → Bool
  | ValidationResult.pass => false
  | ValidationResult.fail _ _ => true

/-- The message `f"IP address \x27{ip}\x27 used in range \x27{rg}\x27"`. -/
def addrFailMsg (ip : IPAddressRec) (rg : IPRangeRec) : String :=
  "IP address \x27" ++ ip.str ++ "\x27 used in range \x27" ++ rg.str ++ "\x27"

/-- Python string form of a list of strings, as `f"{addresses}"` renders it. -/
def pyListStr (l : List String) : String :=
  "[" ++ String.intercalate ", " (l.map (fun s => "\x27" ++ s ++ "\x27")) ++ "]"

/-- The message `f"Range \x27{iprange}\x27 includes existing addresses: {addresses}"`. -/
def rangeFailMsg (rg : IPRangeRec) (addresses : List String) : String :=
  "Range \x27" ++ rg.str ++ "\x27 includes existing addresses: " ++ pyListStr addresses

/-- Embeds `CheckAddressNotInRange.validate(self, ip, instance)`. -/
def CheckAddressNotInRange.validate {α : Type} (b : Backend) (ip : IPAddressRec)
    (_inst : α) : ValidationResult :=
  match address_in_range b ip with
  | some rg => ValidationResult.fail (addrFailMsg ip rg) "address"
  | none => ValidationResult.pass

/-- Embeds `CheckRangeDoesNotIncludeAddress.validate(self, iprange, instance)`. -/
def CheckRangeDoesNotIncludeAddress.validate {α : Type} (b : Backend) (rg : IPRangeRec)
    (_inst : α) : ValidationResult :=
  match range_includes_address b rg with
  | some addresses => ValidationResult.fail (rangeFailMsg rg addresses) "start_address"
  | none => ValidationResult.pass

/-- State-threaded run of `CheckAddressNotInRange.validate`: the same control
flow as the source, with the backend state the call leaves behind made
explicit at every exit point. The source only issues read queries
(`filter`, `exists`, `first`), so every exit returns the incoming state. -/
def CheckAddressNotInRange.validateRun {α : Type} (b : Backend) (ip : IPAddressRec)
    (_inst : α) : Backend × ValidationResult :=
  match filterRangesByVrf b ip.vrf with
  | Except.error _ => (b, ValidationResult.pass)
  | Except.ok byVrf =>
      let including_ranges := filterRangesContaining byVrf ip.address
      if including_ranges.isEmpty then (b, ValidationResult.pass)
      else
        match including_ranges.head? with
        | some rg => (b, ValidationResult.fail (addrFailMsg ip rg) "address")
        | none => (b, ValidationResult.pass)

/-- State-threaded run of `CheckRangeDoesNotIncludeAddress.validate`. -/
def CheckRangeDoesNotIncludeAddress.validateRun {α : Type} (b : Backend) (rg : IPRangeRec)
    (_inst : α) : Backend × ValidationResult :=
  match filterAddressesByVrf b rg.vrf with
  | Except.error _ => (b, ValidationResult.pass)
  | Except.ok byVrf =>
      let included_addresses := filterAddressesBetween byVrf rg.start_address rg.end_address
      if included_addresses.isEmpty then (b, ValidationResult.pass)
      else
        (b, ValidationResult.fail
              (rangeFailMsg rg (included_addresses.map IPAddressRec.str)) "start_address")

/-- A range and an address conflict when they share the scope and the address
value lies within the range's inclusive bounds. -/
def conflicts (rg : IPRangeRec) (ip : IPAddressRec) : Prop :=
  rg.vrf = ip.vrf ∧ rg.start_address ≤ ip.address ∧ ip.address ≤ rg.end_address

instance (rg : IPRangeRec) (ip : IPAddressRec) : Decidable (conflicts rg ip) := by
  unfold conflicts
  infer_instance

/-- All stored ranges conflicting with a candidate address, in query order. -/
def rangeConflictList (b : Backend) (ip : IPAddressRec) : List IPRangeRec :=
  b.ranges.filter (fun rg => decide (conflicts rg ip))

/-- All stored addresses conflicting with a candidate range, in query order. -/
def addrConflictList (b : Backend) (rg : IPRangeRec) : List IPAddressRec :=
  b.addresses.filter (fun ip => decide (conflicts rg ip))

/-- A backend holding a single range record and nothing else. -/
def onlyRange (R : IPRangeRec) : Backend := ⟨[R], [], false, false⟩

/-- A backend holding a single address record and nothing else. -/
def onlyAddress (A : IPAddressRec) : Backend := ⟨[], [A], false, false⟩

/-- Sample data, after the scenario of the spec: a range 10-20 in scope 1. -/
def sampleRange : IPRangeRec := ⟨some 1, 10, 20⟩

/-- A candidate address inside `sampleRange`, same scope. -/
def sampleAddr : IPAddressRec := ⟨some 1, 15⟩

/-- A backend holding only `sampleRange`, with working lookups. -/
def sampleBackend : Backend := ⟨[sampleRange], [], false, false⟩

/-- A stored address of value 5 in scope 1. -/
def sampleAddr5 : IPAddressRec := ⟨some 1, 5⟩

/-- A stored address of value 7 in scope 1. -/
def sampleAddr7 : IPAddressRec := ⟨some 1, 7⟩

/-- A candidate range 1-10 in scope 1, covering both sample addresses. -/
def sampleRange2 : IPRangeRec := ⟨some 1, 1, 10⟩

/-- A backend holding the two sample addresses, with working lookups. -/
def sampleBackend2 : Backend := ⟨[], [sampleAddr5, sampleAddr7], false, false⟩

/-- A backend whose two lookups both raise, although conflicting records exist. -/
def raisingBackend : Backend := ⟨[sampleRange], [sampleAddr5, sampleAddr7], true, true⟩

/-- A backend with two ranges containing 15 and two addresses inside 1-10. -/
def multiBackend : Backend :=
  ⟨[⟨some 1, 10, 20⟩, ⟨some 1, 12, 30⟩], [⟨some 1, 5⟩, ⟨some 1, 7⟩], false, false⟩

theorem rangeConflictList_eq (b : Backend) (ip : IPAddressRec) :
    filterRangesContaining (b.ranges.filter (fun rg => decide (rg.vrf = ip.vrf))) ip.address
      = rangeConflictList b ip := by
  unfold filterRangesContaining rangeConflictList
  rw [List.filter_filter]
  apply List.filter_congr
  intro rg _
  simp [conflicts, Bool.and_comm, Bool.and_left_comm, Bool.and_assoc]

theorem addrConflictList_eq (b : Backend) (rg : IPRangeRec) :
    filterAddressesBetween (b.addresses.filter (fun ip => decide (ip.vrf = rg.vrf)))
        rg.start_address rg.end_address
      = addrConflictList b rg := by
  unfold filterAddressesBetween addrConflictList
  rw [List.filter_filter]
  apply List.filter_congr
  intro ip _
  have hvrf : (ip.vrf = rg.vrf) = (rg.vrf = ip.vrf) := propext eq_comm
  simp [conflicts, hvrf, Bool.and_comm, Bool.and_left_comm, Bool.and_assoc]

theorem address_in_range_eq (b : Backend) (ip : IPAddressRec)
    (hok : b.rangeQueryRaises = false) :
    address_in_range b ip = (rangeConflictList b ip).head? := by
  unfold address_in_range filterRangesByVrf
  rw [hok]
  simp only [Bool.false_eq_true, if_false]
  rw [rangeConflictList_eq]
  cases rangeConflictList b ip <;> simp

theorem range_includes_address_eq (b : Backend) (rg : IPRangeRec)
    (hok : b.addressQueryRaises = false) :
    range_includes_address b rg =
      (if addrConflictList b rg = [] then none
       else some ((addrConflictList b rg).map IPAddressRec.str)) := by
  unfold range_includes_address filterAddressesByVrf
  rw [hok]
  simp only [Bool.false_eq_true, if_false]
  rw [addrConflictList_eq]
  cases addrConflictList b rg <;> simp

theorem rangeConflictList_ne_nil_iff (b : Backend) (ip : IPAddressRec) :
    rangeConflictList b ip ≠ [] ↔ ∃ rg ∈ b.ranges, conflicts rg ip := by
  unfold rangeConflictList
  rw [Ne, List.filter_eq_nil_iff]
  push_neg
  simp

theorem addrConflictList_ne_nil_iff (b : Backend) (rg : IPRangeRec) :
    addrConflictList b rg ≠ [] ↔ ∃ ip ∈ b.addresses, conflicts rg ip := by
  unfold addrConflictList
  rw [Ne, List.filter_eq_nil_iff]
  push_neg
  simp

example : address_in_range ⟨[⟨some 1, 10, 20⟩], [], false, false⟩ ⟨some 1, 15⟩
    = some ⟨some 1, 10, 20⟩ := by decide

example : CheckAddressNotInRange.validate ⟨[⟨some 1, 10, 20⟩], [], false, false⟩
    ⟨some 1, 15⟩ (0 : Nat)
    = ValidationResult.fail "IP address \x2715\x27 used in range \x2710-20\x27" "address" := by
  decide

example : range_includes_address ⟨[], [⟨some 1, 5⟩, ⟨some 1, 7⟩], false, false⟩
    ⟨some 1, 1, 10⟩ = some ["5", "7"] := by decide

theorem address_in_range_of_raises (b : Backend) (ip : IPAddressRec)
    (h : b.rangeQueryRaises = true) : address_in_range b ip = none := by
  unfold address_in_range filterRangesByVrf
  rw [h]
  rfl

theorem range_includes_address_of_raises (b : Backend) (rg : IPRangeRec)
    (h : b.addressQueryRaises = true) : range_includes_address b rg = none := by
  unfold range_includes_address filterAddressesByVrf
  rw [h]
  rfl

theorem validate_onlyRange {α : Type} (R : IPRangeRec) (ip : IPAddressRec) (inst : α) :
    CheckAddressNotInRange.validate (onlyRange R) ip inst =
      if conflicts R ip then ValidationResult.fail (addrFailMsg ip R) "address"
      else ValidationResult.pass := by
  unfold CheckAddressNotInRange.validate
  rw [address_in_range_eq _ _ rfl]
  unfold rangeConflictList onlyRange
  by_cases h : conflicts R ip
  · simp [h]
  · simp [h]

theorem validate_onlyAddress {α : Type} (A : IPAddressRec) (rg : IPRangeRec) (inst : α) :
    CheckRangeDoesNotIncludeAddress.validate (onlyAddress A) rg inst =
      if conflicts rg A then ValidationResult.fail (rangeFailMsg rg [A.str]) "start_address"
      else ValidationResult.pass := by
  unfold CheckRangeDoesNotIncludeAddress.validate
  rw [range_includes_address_eq _ _ rfl]
  unfold addrConflictList onlyAddress
  by_cases h : conflicts rg A
  · simp [h]
  · simp [h]

/-- C1: for every candidate address, when the lookup works, the existence of a
range in the same scope with start_address ≤ address ≤ end_address makes
`CheckAddressNotInRange.validate` fail on field "address" with a message built
from the candidate's and the first conflicting range's string forms; absent
any such range, validate passes. -/
theorem C1_address_check_contract {α : Type} (b : Backend) (ip : IPAddressRec) (inst : α)
    (hok : b.rangeQueryRaises = false) :
    ((∃ rg ∈ b.ranges, conflicts rg ip) →
       ∃ rg, (rangeConflictList b ip).head? = some rg ∧
         CheckAddressNotInRange.validate b ip inst =
           ValidationResult.fail (addrFailMsg ip rg) "address")
    ∧ ((¬ ∃ rg ∈ b.ranges, conflicts rg ip) →
       CheckAddressNotInRange.validate b ip inst = ValidationResult.pass) := by
  constructor
  · intro hex
    have hne : rangeConflictList b ip ≠ [] := (rangeConflictList_ne_nil_iff b ip).mpr hex
    obtain ⟨rg, tl, hcons⟩ := List.exists_cons_of_ne_nil hne
    refine ⟨rg, ?_, ?_⟩
    · rw [hcons]
      rfl
    · unfold CheckAddressNotInRange.validate
      rw [address_in_range_eq b ip hok, hcons]
      rfl
  · intro hnex
    have hnil : rangeConflictList b ip = [] := by
      by_contra h
      exact hnex ((rangeConflictList_ne_nil_iff b ip).mp h)
    unfold CheckAddressNotInRange.validate
    rw [address_in_range_eq b ip hok, hnil]
    rfl

/-- C1 witness: saving address 15 in scope 1 against a backend holding the
range 10-20 in scope 1 fails on field "address" with the expected message. -/
theorem C1_witness :
    CheckAddressNotInRange.validate sampleBackend sampleAddr (0 : Nat) =
      ValidationResult.fail (addrFailMsg sampleAddr sampleRange) "address" := by
  obtain ⟨rg, hhead, heq⟩ :=
    (C1_address_check_contract sampleBackend sampleAddr 0 rfl).1
      ⟨sampleRange, by decide, by decide⟩
  have h3 : (rangeConflictList sampleBackend sampleAddr).head? = some sampleRange := by decide
  rw [h3] at hhead
  rw [← Option.some.inj hhead] at heq
  exact heq

/-- C2: for every candidate range, when the lookup works, the existence of an
address in the same scope within the inclusive bounds makes
`CheckRangeDoesNotIncludeAddress.validate` fail on field "start_address" with
a message listing the string forms of all conflicting addresses; absent any
such address, validate passes. -/
theorem C2_range_check_contract {α : Type} (b : Backend) (rg : IPRangeRec) (inst : α)
    (hok : b.addressQueryRaises = false) :
    ((∃ ip ∈ b.addresses, conflicts rg ip) →
       CheckRangeDoesNotIncludeAddress.validate b rg inst =
         ValidationResult.fail
           (rangeFailMsg rg ((addrConflictList b rg).map IPAddressRec.str)) "start_address")
    ∧ ((¬ ∃ ip ∈ b.addresses, conflicts rg ip) →
       CheckRangeDoesNotIncludeAddress.validate b rg inst = ValidationResult.pass) := by
  constructor
  · intro hex
    have hne : addrConflictList b rg ≠ [] := (addrConflictList_ne_nil_iff b rg).mpr hex
    unfold CheckRangeDoesNotIncludeAddress.validate
    rw [range_includes_address_eq b rg hok, if_neg hne]
  · intro hnex
    have hnil : addrConflictList b rg = [] := by
      by_contra h
      exact hnex ((addrConflictList_ne_nil_iff b rg).mp h)
    unfold CheckRangeDoesNotIncludeAddress.validate
    rw [range_includes_address_eq b rg hok, if_pos hnil]

/-- C2 witness: saving the range 1-10 in scope 1 against a backend holding the
addresses 5 and 7 in scope 1 fails on field "start_address" with the message
listing both conflicting addresses. -/
theorem C2_witness :
    CheckRangeDoesNotIncludeAddress.validate sampleBackend2 sampleRange2 (0 : Nat) =
      ValidationResult.fail
        (rangeFailMsg sampleRange2
          ((addrConflictList sampleBackend2 sampleRange2).map IPAddressRec.str))
        "start_address" :=
  (C2_range_check_contract sampleBackend2 sampleRange2 0 rfl).1
    ⟨sampleAddr5, by decide, by decide⟩

/-- C3: when the backend lookup raises, each check returns the no-conflict
answer and the corresponding validate passes, whatever records exist. -/
theorem C3_fail_open {α : Type} (b : Backend) (ip : IPAddressRec) (rg : IPRangeRec)
    (inst : α) :
    (b.rangeQueryRaises = true →
       address_in_range b ip = none ∧
       CheckAddressNotInRange.validate b ip inst = ValidationResult.pass)
    ∧ (b.addressQueryRaises = true →
       range_includes_address b rg = none ∧
       CheckRangeDoesNotIncludeAddress.validate b rg inst = ValidationResult.pass) := by
  constructor
  · intro h
    have h1 := address_in_range_of_raises b ip h
    refine ⟨h1, ?_⟩
    unfold CheckAddressNotInRange.validate
    rw [h1]
  · intro h
    have h1 := range_includes_address_of_raises b rg h
    refine ⟨h1, ?_⟩
    unfold CheckRangeDoesNotIncludeAddress.validate
    rw [h1]

/-- C3 witness: against a backend whose lookups raise although it holds
conflicting records, both checks return none and both validates pass. -/
theorem C3_witness :
    (address_in_range raisingBackend sampleAddr = none ∧
     CheckAddressNotInRange.validate raisingBackend sampleAddr (0 : Nat) =
       ValidationResult.pass)
    ∧ (range_includes_address raisingBackend sampleRange2 = none ∧
       CheckRangeDoesNotIncludeAddress.validate raisingBackend sampleRange2 (0 : Nat) =
         ValidationResult.pass) :=
  ⟨(C3_fail_open raisingBackend sampleAddr sampleRange2 0).1 rfl,
   (C3_fail_open raisingBackend sampleAddr sampleRange2 0).2 rfl⟩

/-- C4: range bounds are inclusive on both ends: with a single stored range R
(resp. a single stored address), an address equal to R.start_address or
R.end_address fails both checks, while one equal to R.start_address - 1 or
R.end_address + 1 passes both. -/
theorem C4_inclusive_bounds {α : Type} (R : IPRangeRec) (inst : α)
    (hse : R.start_address ≤ R.end_address) (hpos : 0 < R.start_address) :
    ((CheckAddressNotInRange.validate (onlyRange R) ⟨R.vrf, R.start_address⟩ inst).isFail
        = true)
    ∧ ((CheckAddressNotInRange.validate (onlyRange R) ⟨R.vrf, R.end_address⟩ inst).isFail
        = true)
    ∧ (CheckAddressNotInRange.validate (onlyRange R) ⟨R.vrf, R.start_address - 1⟩ inst
        = ValidationResult.pass)
    ∧ (CheckAddressNotInRange.validate (onlyRange R) ⟨R.vrf, R.end_address + 1⟩ inst
        = ValidationResult.pass)
    ∧ ((CheckRangeDoesNotIncludeAddress.validate
          (onlyAddress ⟨R.vrf, R.start_address⟩) R inst).isFail = true)
    ∧ ((CheckRangeDoesNotIncludeAddress.validate
          (onlyAddress ⟨R.vrf, R.end_address⟩) R inst).isFail = true)
    ∧ (CheckRangeDoesNotIncludeAddress.validate
          (onlyAddress ⟨R.vrf, R.start_address - 1⟩) R inst = ValidationResult.pass)
    ∧ (CheckRangeDoesNotIncludeAddress.validate
          (onlyAddress ⟨R.vrf, R.end_address + 1⟩) R inst = ValidationResult.pass) := by
  have hlow : ¬ R.start_address ≤ R.start_address - 1 :=
    Nat.not_le.mpr (Nat.sub_lt hpos Nat.one_pos)
  have hhigh : ¬ R.end_address + 1 ≤ R.end_address := Nat.not_succ_le_self _
  refine ⟨?_, ?_, ?_, ?_, ?_, ?_, ?_, ?_⟩
  · rw [validate_onlyRange, if_pos ⟨rfl, le_refl _, hse⟩]
    rfl
  · rw [validate_onlyRange, if_pos ⟨rfl, hse, le_refl _⟩]
    rfl
  · rw [validate_onlyRange, if_neg]
    rintro ⟨-, h1, -⟩
    exact hlow h1
  · rw [validate_onlyRange, if_neg]
    rintro ⟨-, -, h2⟩
    exact hhigh h2
  · rw [validate_onlyAddress, if_pos ⟨rfl, le_refl _, hse⟩]
    rfl
  · rw [validate_onlyAddress, if_pos ⟨rfl, hse, le_refl _⟩]
    rfl
  · rw [validate_onlyAddress, if_neg]
    rintro ⟨-, h1, -⟩
    exact hlow h1
  · rw [validate_onlyAddress, if_neg]
    rintro ⟨-, -, h2⟩
    exact hhigh h2

/-- C4 witness: the boundary behaviour at the concrete range 10-20 in scope 1. -/
theorem C4_witness :
    ((CheckAddressNotInRange.validate (onlyRange sampleRange) ⟨some 1, 10⟩ (0 : Nat)).isFail
        = true)
    ∧ ((CheckAddressNotInRange.validate (onlyRange sampleRange) ⟨some 1, 20⟩ (0 : Nat)).isFail
        = true)
    ∧ (CheckAddressNotInRange.validate (onlyRange sampleRange) ⟨some 1, 9⟩ (0 : Nat)
        = ValidationResult.pass)
    ∧ (CheckAddressNotInRange.validate (onlyRange sampleRange) ⟨some 1, 21⟩ (0 : Nat)
        = ValidationResult.pass)
    ∧ ((CheckRangeDoesNotIncludeAddress.validate
          (onlyAddress ⟨some 1, 10⟩) sampleRange (0 : Nat)).isFail = true)
    ∧ ((CheckRangeDoesNotIncludeAddress.validate
          (onlyAddress ⟨some 1, 20⟩) sampleRange (0 : Nat)).isFail = true)
    ∧ (CheckRangeDoesNotIncludeAddress.validate
          (onlyAddress ⟨some 1, 9⟩) sampleRange (0 : Nat) = ValidationResult.pass)
    ∧ (CheckRangeDoesNotIncludeAddress.validate
          (onlyAddress ⟨some 1, 21⟩) sampleRange (0 : Nat) = ValidationResult.pass) :=
  C4_inclusive_bounds sampleRange 0 (by decide) (by decide)

/-- C5: scope isolation: a range and an address with overlapping numeric
values but different scopes make neither check fail. -/
theorem C5_scope_isolation {α : Type} (R : IPRangeRec) (A : IPAddressRec) (inst : α)
    (hdiff : A.vrf ≠ R.vrf)
    (h1 : R.start_address ≤ A.address) (h2 : A.address ≤ R.end_address) :
    CheckAddressNotInRange.validate (onlyRange R) A inst = ValidationResult.pass
    ∧ CheckRangeDoesNotIncludeAddress.validate (onlyAddress A) R inst
        = ValidationResult.pass := by
  constructor
  · rw [validate_onlyRange, if_neg]
    rintro ⟨h, -, -⟩
    exact hdiff h.symm
  · rw [validate_onlyAddress, if_neg]
    rintro ⟨h, -, -⟩
    exact hdiff h.symm

/-- C5 witness: address 15 in scope 2 against range 10-20 in scope 1 passes
both checks although the numeric values overlap. -/
theorem C5_witness :
    CheckAddressNotInRange.validate (onlyRange sampleRange) ⟨some 2, 15⟩ (0 : Nat)
        = ValidationResult.pass
    ∧ CheckRangeDoesNotIncludeAddress.validate (onlyAddress ⟨some 2, 15⟩) sampleRange (0 : Nat)
        = ValidationResult.pass :=
  C5_scope_isolation sampleRange ⟨some 2, 15⟩ 0 (by decide) (by decide) (by decide)

/-- C6: when several records conflict, the address check reports only the
first conflicting range in query order, while the range check reports the
string forms of all conflicting addresses. -/
theorem C6_first_vs_all {α : Type} (b : Backend) (ip : IPAddressRec) (rg : IPRangeRec)
    (inst : α) (hok1 : b.rangeQueryRaises = false) (hok2 : b.addressQueryRaises = false) :
    (∀ r0 t, rangeConflictList b ip = r0 :: t →
       CheckAddressNotInRange.validate b ip inst =
         ValidationResult.fail (addrFailMsg ip r0) "address")
    ∧ (addrConflictList b rg ≠ [] →
       CheckRangeDoesNotIncludeAddress.validate b rg inst =
         ValidationResult.fail
           (rangeFailMsg rg ((addrConflictList b rg).map IPAddressRec.str))
           "start_address") := by
  constructor
  · intro r0 t hcons
    unfold CheckAddressNotInRange.validate
    rw [address_in_range_eq b ip hok1, hcons]
    rfl
  · intro hne
    unfold CheckRangeDoesNotIncludeAddress.validate
    rw [range_includes_address_eq b rg hok2, if_neg hne]

/-- C6 witness: with two ranges both containing 15 the message names only the
first, and with two addresses inside 1-10 the message lists both. -/
theorem C6_witness :
    CheckAddressNotInRange.validate multiBackend ⟨some 1, 15⟩ (0 : Nat) =
      ValidationResult.fail (addrFailMsg ⟨some 1, 15⟩ ⟨some 1, 10, 20⟩) "address"
    ∧ CheckRangeDoesNotIncludeAddress.validate multiBackend ⟨some 1, 1, 10⟩ (0 : Nat) =
      ValidationResult.fail
        (rangeFailMsg ⟨some 1, 1, 10⟩
          ((addrConflictList multiBackend ⟨some 1, 1, 10⟩).map IPAddressRec.str))
        "start_address" :=
  ⟨(C6_first_vs_all multiBackend ⟨some 1, 15⟩ ⟨some 1, 1, 10⟩ 0 rfl rfl).1
      ⟨some 1, 10, 20⟩ [⟨some 1, 12, 30⟩] (by decide),
   (C6_first_vs_all multiBackend ⟨some 1, 15⟩ ⟨some 1, 1, 10⟩ 0 rfl rfl).2 (by decide)⟩

/-- C7: both checks are read-only: running either validate leaves the stored
range and address records unchanged, and yields the same outcome as the pure
validate function. -/
theorem C7_read_only {α : Type} (b : Backend) (ip : IPAddressRec) (rg : IPRangeRec)
    (inst : α) :
    ((CheckAddressNotInRange.validateRun b ip inst).1.ranges = b.ranges
     ∧ (CheckAddressNotInRange.validateRun b ip inst).1.addresses = b.addresses
     ∧ (CheckAddressNotInRange.validateRun b ip inst).2
         = CheckAddressNotInRange.validate b ip inst)
    ∧ ((CheckRangeDoesNotIncludeAddress.validateRun b rg inst).1.ranges = b.ranges
     ∧ (CheckRangeDoesNotIncludeAddress.validateRun b rg inst).1.addresses = b.addresses
     ∧ (CheckRangeDoesNotIncludeAddress.validateRun b rg inst).2
         = CheckRangeDoesNotIncludeAddress.validate b rg inst) := by
  constructor
  · unfold CheckAddressNotInRange.validateRun CheckAddressNotInRange.validate
      address_in_range
    cases filterRangesByVrf b ip.vrf with
    | error e => exact ⟨rfl, rfl, rfl⟩
    | ok byVrf =>
        cases hl : filterRangesContaining byVrf ip.address with
        | nil => simp [hl]
        | cons r t => simp [hl]
  · unfold CheckRangeDoesNotIncludeAddress.validateRun
      CheckRangeDoesNotIncludeAddress.validate range_includes_address
    cases filterAddressesByVrf b rg.vrf with
    | error e => exact ⟨rfl, rfl, rfl⟩
    | ok byVrf =>
        cases hl : filterAddressesBetween byVrf rg.start_address rg.end_address with
        | nil => simp [hl]
        | cons a t => simp [hl]

/-- C8: postcondition of `address_in_range`: a non-None result is a stored
range sharing the candidate's scope whose inclusive bounds contain the
candidate's value. -/
theorem C8_address_in_range_post (b : Backend) (ip : IPAddressRec) (rg : IPRangeRec)
    (h : address_in_range b ip = some rg) :
    rg ∈ b.ranges ∧ rg.vrf = ip.vrf ∧ rg.start_address ≤ ip.address
      ∧ ip.address ≤ rg.end_address := by
  cases hr : b.rangeQueryRaises with
  | true =>
      rw [address_in_range_of_raises b ip hr] at h
      cases h
  | false =>
      rw [address_in_range_eq b ip hr] at h
      have hmem : rg ∈ rangeConflictList b ip := by
        cases hl : rangeConflictList b ip with
        | nil =>
            rw [hl] at h
            cases h
        | cons a t =>
            rw [hl] at h
            rw [← Option.some.inj h]
            exact List.mem_cons_self a t
      unfold rangeConflictList at hmem
      obtain ⟨hin, hdec⟩ := List.mem_filter.mp hmem
      exact ⟨hin, of_decide_eq_true hdec⟩

/-- C8 witness: on the sample backend the returned range 10-20 is stored,
shares scope 1 with the candidate 15 and contains it. -/
theorem C8_witness :
    sampleRange ∈ sampleBackend.ranges ∧ sampleRange.vrf = sampleAddr.vrf
      ∧ sampleRange.start_address ≤ sampleAddr.address
      ∧ sampleAddr.address ≤ sampleRange.end_address :=
  C8_address_in_range_post sampleBackend sampleAddr sampleRange (by decide)

/-- C9: `range_includes_address` never returns an empty list: a non-None
result is a non-empty list whose every element is the string form of a stored
address lying in the candidate range's scope and inclusive bounds. -/
theorem C9_range_includes_address_post (b : Backend) (rg : IPRangeRec) (l : List String)
    (h : range_includes_address b rg = some l) :
    l ≠ [] ∧ ∀ s ∈ l, ∃ ip ∈ b.addresses, s = ip.str ∧ conflicts rg ip := by
  cases hr : b.addressQueryRaises with
  | true =>
      rw [range_includes_address_of_raises b rg hr] at h
      cases h
  | false =>
      rw [range_includes_address_eq b rg hr] at h
      by_cases hnil : addrConflictList b rg = []
      · rw [if_pos hnil] at h
        cases h
      · rw [if_neg hnil] at h
        rw [← Option.some.inj h]
        constructor
        · simp [hnil]
        · intro s hs
          obtain ⟨ip, hip, hstr⟩ := List.mem_map.mp hs
          unfold addrConflictList at hip
          obtain ⟨hin, hdec⟩ := List.mem_filter.mp hip
          exact ⟨ip, hin, hstr.symm, of_decide_eq_true hdec⟩

/-- C9 witness: on the backend holding addresses 5 and 7, the result for the
range 1-10 is the non-empty list of their string forms, each from a stored
conflicting address. -/
theorem C9_witness :
    (["5", "7"] : List String) ≠ [] ∧
      ∀ s ∈ (["5", "7"] : List String),
        ∃ ip ∈ sampleBackend2.addresses, s = ip.str ∧ conflicts sampleRange2 ip :=
  C9_range_includes_address_post sampleBackend2 sampleRange2 ["5", "7"] (by decide)

/-- C10: both validate methods ignore the save-context argument: any two
values of the instance parameter, even of different types, give the same
outcome on the same backend and candidate. -/
theorem C10_instance_ignored {α β : Type} (b : Backend) (ip : IPAddressRec)
    (rg : IPRangeRec) (i1 : α) (i2 : β) :
    CheckAddressNotInRange.validate b ip i1 = CheckAddressNotInRange.validate b ip i2
    ∧ CheckRangeDoesNotIncludeAddress.validate b rg i1
        = CheckRangeDoesNotIncludeAddress.validate b rg i2 :=
  ⟨rfl, rfl⟩
